import Mathlib

/-
Verification of the reservation and table-allocation core of the sittarra2
restaurant-booking backend (Express + Supabase, TypeScript).

Shallow embedding conventions:
  * Database rows are Lean structures; the shared persistent store is an
    explicit AppState record of row lists.  Inserts append to the list;
    supabase update-by-id is a map over the list that rewrites every row
    whose id matches (ids are unique in practice, the embedding does not
    assume it).
  * Reservation / table / waitlist statuses and roles are Strings, exactly
    as in the TypeScript source, which compares them as strings.
  * DB times (HH:MM:SS strings in the source, compared lexicographically
    and parsed by splitting on the colon) are modelled as hour/minute/second
    triples; lexicographic comparison of zero-padded time strings coincides
    with numeric comparison of the triples.
  * Randomly generated values (fresh row ids, QR codes) and the clock are
    passed in as explicit parameters.
  * Purely external side effects (emails, Stripe refunds, audit logs,
    console logging, created_at/updated_at timestamps and the internal_notes
    audit string of walk-ins) are not part of the modelled state.
  * Each route handler returns an outcome value (one constructor per early
    return of the handler) plus the post-state; an httpStatus function maps
    outcomes to the HTTP status codes the handler sends.
-/

/-- Wall-clock time of day: hours, minutes, seconds. -/
structure HMS where
  h : Nat
  m : Nat
  s : Nat
deriving DecidableEq, Repr

/-- Seconds since midnight; lexicographic order of well-formed HH:MM:SS strings
equals numeric order of this value. -/
def HMS.toSec (t : HMS) : Nat := t.h * 3600 + t.m * 60 + t.s

/-- Boolean less-or-equal on times, mirroring a string comparison in the source. -/
def hmsLe (a b : HMS) : Bool := a.toSec ≤ b.toSec

/-- Boolean strict less-than on times, mirroring a string comparison in the source. -/
def hmsLt (a b : HMS) : Bool := a.toSec < b.toSec

/-- Add minutes to a wall-clock time, wrapping past midnight (JS Date arithmetic
followed by toTimeString keeps only the wall-clock part). Seconds are kept. -/
def addMinutes (t : HMS) (k : Nat) : HMS :=
  let total := (t.h * 60 + t.m + k) % 1440
  ⟨total / 60, total % 60, t.s⟩

/-- Reservation row (table public.reservations), restricted to the columns the
modelled handlers read or write. -/
structure Reservation where
  id : Nat
  restaurantId : Nat
  userId : Nat
  tableId : Nat
  date : String
  time : HMS
  endTime : Option HMS
  guestCount : Nat
  occasion : Option String
  specialRequest : Option String
  status : String
  depositPaid : Bool
  depositAmount : Option Nat
  source : String
  qrCode : String
deriving DecidableEq, Repr

/-- Table row (table public.tables); status is the physical status string. -/
structure Table where
  id : Nat
  restaurantId : Nat
  number : Nat
  capacity : Nat
  isActive : Bool
  status : String
deriving DecidableEq, Repr

/-- Holiday entry inside a restaurant row's holidays JSON column. -/
structure Holiday where
  date : String
  closed : Bool
deriving DecidableEq, Repr

/-- Restaurant row, restricted to what the modelled handlers use. -/
structure Restaurant where
  id : Nat
  holidays : List Holiday
deriving DecidableEq, Repr

/-- Waitlist row (table public.waitlist). -/
structure WaitlistEntry where
  id : Nat
  restaurantId : Nat
  userId : Option Nat
  name : String
  phone : String
  email : Option String
  partySize : Nat
  preferredZone : Option String
  notes : Option String
  position : Nat
  estimatedWait : Nat
  status : String
deriving DecidableEq, Repr

/-- The shared persistent store. -/
structure AppState where
  reservations : List Reservation
  tables : List Table
  restaurants : List Restaurant
  waitlist : List WaitlistEntry
deriving DecidableEq, Repr

/-- Authenticated caller as seen by the route handlers (req.user):
id, role string, and the admin restaurant context when present. -/
structure Actor where
  id : Nat
  role : String
  restaurantId : Option Nat
deriving DecidableEq, Repr

/-- Lookup of a reservation row by id (supabase select-eq-id-single). -/
def findReservation (st : AppState) (id : Nat) : Option Reservation :=
  st.reservations.find? (fun r => r.id == id)

/-- Update-by-id on the reservations table (supabase update().eq(id)). -/
def updateReservation (st : AppState) (id : Nat) (f : Reservation → Reservation) : AppState :=
  { st with reservations := st.reservations.map (fun r => if r.id == id then f r else r) }

/-- Update-by-id of a table row's physical status (supabase update().eq(id)). -/
def updateTableStatus (st : AppState) (tableId : Nat) (s : String) : AppState :=
  { st with tables := st.tables.map (fun t => if t.id == tableId then { t with status := s } else t) }

/-- Create-reservation request body, src/unnamed/part_007 POST /api/reservations. -/
structure CreateInput where
  restaurantId : Nat
  tableId : Nat
  date : String
  time : HMS
  guestCount : Nat
  occasion : Option String
  specialRequest : Option String
  depositPaid : Bool
  depositAmount : Option Nat
deriving DecidableEq, Repr

/-- Outcomes of POST /api/reservations, one constructor per handler return. -/
inductive CreateOutcome where
  | missingFields
  | conflict
  | created (r : Reservation)
deriving DecidableEq, Repr

/-- HTTP status the handler sends for each outcome. -/
def CreateOutcome.httpStatus : CreateOutcome → Nat
  | .missingFields => 400
  | .conflict => 409
  | .created _ => 201

/-- Conflict filter of the create handler: same table, date and time, and a
status that the query does not exclude — the source excludes only cancelled
and no_show (src/unnamed/part_007, the not-in filter of the conflict query). -/
def slotConflicts (r : Reservation) (tableId : Nat) (date : String) (time : HMS) : Bool :=
  r.tableId == tableId && r.date == date && r.time == time &&
    !(r.status == "cancelled" || r.status == "no_show")

/-- POST /api/reservations (src/unnamed/part_007).  Required-field validation
is modelled by the guestCount-zero test (the only required field whose Lean
encoding still has a JS-falsy value); the other required fields are present by
typing.  On success the row is inserted with status confirmed when the deposit
is paid and pending otherwise, and the table's physical status is set to
pending.  The source column defaults supply source = online and no end_time. -/
def createReservation (st : AppState) (inp : CreateInput) (userId : Nat)
    (newId : Nat) (qrCode : String) : CreateOutcome × AppState :=
  if inp.guestCount == 0 then (.missingFields, st)
  else if st.reservations.any (fun r => slotConflicts r inp.tableId inp.date inp.time) then
    (.conflict, st)
  else
    let r : Reservation :=
      { id := newId
        restaurantId := inp.restaurantId
        userId := userId
        tableId := inp.tableId
        date := inp.date
        time := inp.time
        endTime := none
        guestCount := inp.guestCount
        occasion := inp.occasion
        specialRequest := inp.specialRequest
        status := if inp.depositPaid then "confirmed" else "pending"
        depositPaid := inp.depositPaid
        depositAmount := inp.depositAmount
        source := "online"
        qrCode := qrCode }
    let st1 : AppState := { st with reservations := st.reservations ++ [r] }
    (.created r, updateTableStatus st1 inp.tableId "pending")

/-- Accepted bodies of PATCH /api/reservations/:id/status (src/unnamed/part_007,
validStatuses).  Note that the list has no seated entry. -/
def validStatuses : List String :=
  ["pending", "confirmed", "arrived", "completed", "cancelled", "no_show"]

/-- Terminal reservation statuses as the cancel handler lists them. -/
def terminalStatuses : List String := ["completed", "cancelled", "no_show"]

/-- Outcomes of PATCH /api/reservations/:id/status. -/
inductive PatchOutcome where
  | invalidStatus
  | notFound
  | forbidden
  | ok (r : Reservation)
deriving DecidableEq, Repr

/-- HTTP status the handler sends for each outcome. -/
def PatchOutcome.httpStatus : PatchOutcome → Nat
  | .invalidStatus => 400
  | .notFound => 404
  | .forbidden => 403
  | .ok _ => 200

/-- Table side effect of the status handler's switch: confirmed and arrived set
the table occupied, the three terminal statuses free it, pending touches
nothing (no case in the switch). -/
def tableStatusFor (status : String) : Option String :=
  if status == "confirmed" then some "occupied"
  else if status == "arrived" then some "occupied"
  else if status == "completed" || status == "cancelled" || status == "no_show" then
    some "available"
  else none

/-- PATCH /api/reservations/:id/status (src/unnamed/part_007).  After the
status whitelist, the row lookup and the restaurant-context guard, the handler
updates the reservation's status unconditionally — it never inspects the
current status — and then applies the table side effect. -/
def patchReservationStatus (st : AppState) (id : Nat) (status : String)
    (actor : Actor) : PatchOutcome × AppState :=
  if !(validStatuses.contains status) then (.invalidStatus, st)
  else
    match findReservation st id with
    | none => (.notFound, st)
    | some rsv =>
      if actor.role == "restaurant_admin" && some rsv.restaurantId != actor.restaurantId then
        (.forbidden, st)
      else
        let st1 := updateReservation st id (fun r => { r with status := status })
        let st2 := match tableStatusFor status with
          | some ts => updateTableStatus st1 rsv.tableId ts
          | none => st1
        (.ok { rsv with status := status }, st2)

/-- Outcomes of POST /api/reservations/:id/cancel. -/
inductive CancelOutcome where
  | notFound
  | forbidden
  | invalidState
  | ok
deriving DecidableEq, Repr

/-- HTTP status the handler sends for each outcome. -/
def CancelOutcome.httpStatus : CancelOutcome → Nat
  | .notFound => 404
  | .forbidden => 403
  | .invalidState => 400
  | .ok => 200

/-- POST /api/reservations/:id/cancel (src/unnamed/part_007).  Ownership and
restaurant-context guards, then the terminal-status guard, then the update:
status becomes cancelled and the cancellation reason is appended to the
guest-visible special_request column; finally the table is freed.  A missing
or empty reason falls back to the literal the source uses. -/
def cancelReservation (st : AppState) (id : Nat) (reason : Option String)
    (actor : Actor) : CancelOutcome × AppState :=
  match findReservation st id with
  | none => (.notFound, st)
  | some rsv =>
    if rsv.userId != actor.id && actor.role != "restaurant_admin" &&
        actor.role != "super_admin" then
      (.forbidden, st)
    else if actor.role == "restaurant_admin" && some rsv.restaurantId != actor.restaurantId then
      (.forbidden, st)
    else if terminalStatuses.contains rsv.status then (.invalidState, st)
    else
      let reasonText := match reason with
        | some s => if s == "" then "No reason provided" else s
        | none => "No reason provided"
      let newSpecial := match rsv.specialRequest with
        | some sr => sr ++ "\n\n[Cancelled: " ++ reasonText ++ "]"
        | none => "[Cancelled: " ++ reasonText ++ "]"
      let st1 := updateReservation st id
        (fun r => { r with status := "cancelled", specialRequest := some newSpecial })
      (.ok, updateTableStatus st1 rsv.tableId "available")

/-- Outcomes of PATCH /api/reservations/:id (reschedule). -/
inductive RescheduleOutcome where
  | noFields
  | notFound
  | forbidden
  | holidayClosed
  | overCapacity
  | conflict
  | ok (r : Reservation)
deriving DecidableEq, Repr

/-- HTTP status the handler sends for each outcome. -/
def RescheduleOutcome.httpStatus : RescheduleOutcome → Nat
  | .noFields => 400
  | .notFound => 404
  | .forbidden => 403
  | .holidayClosed => 400
  | .overCapacity => 400
  | .conflict => 409
  | .ok _ => 200

/-- PATCH /api/reservations/:id (src/unnamed/part_007).  Optional body fields
are Options (a JS-falsy guestCount of zero is treated as absent by the source
and is not representable here).  Checks run in source order: at least one
field, row lookup, ownership, holiday closure of the new date, capacity of the
reservation's table when guestCount was sent and the table row is found,
conflict at the new slot excluding the reservation's own id, then the update. -/
def rescheduleReservation (st : AppState) (id : Nat) (date : Option String)
    (time : Option HMS) (guestCount : Option Nat) (actor : Actor) :
    RescheduleOutcome × AppState :=
  if date == none && time == none && guestCount == none then (.noFields, st)
  else
    match findReservation st id with
    | none => (.notFound, st)
    | some rsv =>
      if rsv.userId != actor.id && actor.role != "super_admin" then (.forbidden, st)
      else
        let finalGuestCount := guestCount.getD rsv.guestCount
        let finalDate := date.getD rsv.date
        let finalTime := time.getD rsv.time
        let holidayBlocked :=
          date.isSome &&
            (((st.restaurants.find? (fun x => x.id == rsv.restaurantId)).map
                Restaurant.holidays).getD []).any
              (fun hd => hd.date == finalDate && hd.closed)
        if holidayBlocked then (.holidayClosed, st)
        else
          let capacityBlocked :=
            guestCount.isSome &&
              (match st.tables.find? (fun t => t.id == rsv.tableId) with
                | some table => decide (table.capacity < finalGuestCount)
                | none => false)
          if capacityBlocked then (.overCapacity, st)
          else
            let conflictBlocked :=
              (date.isSome || time.isSome) &&
                st.reservations.any (fun r =>
                  r.tableId == rsv.tableId && r.date == finalDate &&
                  r.time == finalTime && r.id != id &&
                  !(r.status == "cancelled" || r.status == "no_show"))
            if conflictBlocked then (.conflict, st)
            else
              let upd : Reservation → Reservation := fun r =>
                { r with date := finalDate, time := finalTime, guestCount := finalGuestCount }
              (.ok (upd rsv), updateReservation st id upd)

/-- Availability filter of GET /api/restaurants/:id/tables/available
(src/unnamed/part_010): active tables of the restaurant with capacity at least
the requested guests, minus the tables having a reservation at exactly
(date, time) whose status the query does not exclude (only cancelled and
no_show are excluded). -/
def findAvailableTables (st : AppState) (restaurantId : Nat) (date : String)
    (time : HMS) (guests : Nat) : List Table :=
  let tables := st.tables.filter (fun t =>
    t.restaurantId == restaurantId && guests ≤ t.capacity && t.isActive)
  let reservedTableIds := (st.reservations.filter (fun r =>
    r.restaurantId == restaurantId && r.date == date && r.time == time &&
    !(r.status == "cancelled" || r.status == "no_show"))).map (fun r => r.tableId)
  tables.filter (fun t => !(reservedTableIds.contains t.id))

/-- Response of GET /api/restaurants/:id/tables/available once the three query
parameters are present: the handler has no error branch after its queries and
always sends 200 with the filtered list, even when it is empty. -/
inductive AvailableOutcome where
  | ok (tables : List Table)
deriving DecidableEq, Repr

/-- HTTP status of the available-tables response. -/
def AvailableOutcome.httpStatus : AvailableOutcome → Nat
  | .ok _ => 200

/-- GET /api/restaurants/:id/tables/available (src/unnamed/part_010). -/
def getAvailableTables (st : AppState) (restaurantId : Nat) (date : String)
    (time : HMS) (guests : Nat) : AvailableOutcome :=
  .ok (findAvailableTables st restaurantId date time guests)

/-- Stable insertion of an element into a sorted list, keeping earlier elements
first among equals. -/
def insertSorted (le : α → α → Bool) (a : α) : List α → List α
  | [] => [a]
  | b :: l => if le a b then a :: b :: l else b :: insertSorted le a l

/-- Stable sort, modelling JS Array.prototype.sort with an ascending
comparator (stable per the ECMAScript specification).  The algorithm itself is
irrelevant to every property proved below; structural recursion keeps concrete
evaluations kernel-reducible. -/
def sortBy (le : α → α → Bool) : List α → List α
  | [] => []
  | a :: l => insertSorted le a (sortBy le l)

/-- Per-table entry of the status report
(src/backend/src/services/tableStatus.ts, TableStatusReport). -/
structure TableStatusReport where
  tableId : Nat
  number : Nat
  logicalStatus : String
  currentReservation : Option Reservation
  nextReservation : Option Reservation
  remainingTimeMinutes : Option Int
deriving DecidableEq, Repr

/-- Minute difference used by the status engine
(TableStatusService.calculateRemainingMinutes): hours and minutes only
(seconds are dropped by the split), negative deltas wrap by adding 1440. -/
def calculateRemainingMinutes (startTime endTime : HMS) : Int :=
  let startMinutes : Int := startTime.h * 60 + startTime.m
  let endMinutes : Int := endTime.h * 60 + endTime.m
  let diff := endMinutes - startMinutes
  if diff < 0 then diff + 1440 else diff

/-- Current-reservation test of the status engine (tableStatus.ts, the find
over tableReservations): arrived or seated, or confirmed with time at or
before now and either no end_time or an end_time still in the future. -/
def isCurrentRes (now : HMS) (r : Reservation) : Bool :=
  (r.status == "arrived" || r.status == "seated") ||
  (hmsLe r.time now &&
    (match r.endTime with
      | none => true
      | some e => hmsLt now e) &&
    r.status == "confirmed")

/-- Next-reservation test of the status engine: strictly future time and a
pending or confirmed status. -/
def isNextRes (now : HMS) (r : Reservation) : Bool :=
  hmsLt now r.time && (["pending", "confirmed"].contains r.status)

/-- Status-report entry for one table
(the body of the tables.map closure in getRestaurantStatusReport).
reservations is the restaurant's already-filtered list of today's
not-cancelled/not-no_show reservations. -/
def tableReport (table : Table) (reservations : List Reservation) (now : HMS) :
    TableStatusReport :=
  let tableReservations :=
    sortBy (fun a b => hmsLe a.time b.time)
      (reservations.filter (fun r => r.tableId == table.id))
  let currentRes := tableReservations.find? (isCurrentRes now)
  let nextRes := tableReservations.find? (isNextRes now)
  let labelAndRemaining : String × Option Int :=
    if table.status == "blocked" || table.status == "disabled" then
      ("OUT_OF_SERVICE", none)
    else
      match currentRes with
      | some c =>
        ("OCCUPIED",
          match c.endTime with
          | some e => some (calculateRemainingMinutes now e)
          | none => none)
      | none =>
        match nextRes with
        | some nx =>
          let minutesUntilNext := calculateRemainingMinutes now nx.time
          (if minutesUntilNext ≤ 30 then "RESERVED"
            else if minutesUntilNext ≤ 90 then "NEXT_RESERVATION"
            else "FREE",
            some minutesUntilNext)
        | none => ("FREE", none)
  { tableId := table.id
    number := table.number
    logicalStatus := labelAndRemaining.1
    currentReservation := currentRes
    nextReservation := nextRes
    remainingTimeMinutes := labelAndRemaining.2 }

/-- TableStatusService.getRestaurantStatusReport
(src/backend/src/services/tableStatus.ts): all active tables of the
restaurant ordered by number, each mapped through tableReport against today's
reservations of the restaurant whose status the query does not exclude. -/
def getRestaurantStatusReport (st : AppState) (restaurantId : Nat)
    (today : String) (now : HMS) : List TableStatusReport :=
  let tables :=
    sortBy (fun a b => a.number ≤ b.number)
      (st.tables.filter (fun t => t.restaurantId == restaurantId && t.isActive))
  let reservations := st.reservations.filter (fun r =>
    r.restaurantId == restaurantId && r.date == today &&
    !(r.status == "cancelled" || r.status == "no_show"))
  tables.map (fun t => tableReport t reservations now)

/-- Outcomes of POST /api/admin/mesas/:id/walk-in. -/
inductive WalkInOutcome where
  | missingGuestCount
  | tableNotFound
  | notAvailable
  | upcomingReservation
  | ok (r : Reservation)
deriving DecidableEq, Repr

/-- HTTP status the handler sends for each outcome. -/
def WalkInOutcome.httpStatus : WalkInOutcome → Nat
  | .missingGuestCount => 400
  | .tableNotFound => 404
  | .notAvailable => 409
  | .upcomingReservation => 409
  | .ok _ => 201

/-- POST /api/admin/mesas/:id/walk-in (src/backend/src/routes/admin/tables.ts).
Consults the status report of the actor's restaurant; the table's entry must
carry label FREE or NEXT_RESERVATION, and when a next reservation exists the
remaining minutes (0 when absent) must be at least 60.  On success a seated
walk_in reservation is inserted for today at the current time with an
estimated end_time 90 minutes later, and the table is set occupied.  The
internal_notes audit string of the insert is outside the modelled columns. -/
def assignWalkIn (st : AppState) (tableId : Nat) (restaurantId : Nat)
    (guestCount : Nat) (today : String) (now : HMS) (userId newId : Nat)
    (qrCode : String) : WalkInOutcome × AppState :=
  if guestCount == 0 then (.missingGuestCount, st)
  else
    let report := getRestaurantStatusReport st restaurantId today now
    match report.find? (fun t => t.tableId == tableId) with
    | none => (.tableNotFound, st)
    | some ts =>
      if ts.logicalStatus != "FREE" && ts.logicalStatus != "NEXT_RESERVATION" then
        (.notAvailable, st)
      else if ts.nextReservation.isSome && (ts.remainingTimeMinutes.getD 0) < 60 then
        (.upcomingReservation, st)
      else
        let r : Reservation :=
          { id := newId
            restaurantId := restaurantId
            userId := userId
            tableId := tableId
            date := today
            time := now
            endTime := some (addMinutes now 90)
            guestCount := guestCount
            occasion := none
            specialRequest := none
            status := "seated"
            depositPaid := false
            depositAmount := none
            source := "walk_in"
            qrCode := qrCode }
        let st1 : AppState := { st with reservations := st.reservations ++ [r] }
        (.ok r, updateTableStatus st1 tableId "occupied")

/-- Outcomes of POST /api/waitlist/join. -/
inductive JoinOutcome where
  | missingFields
  | restaurantNotFound
  | alreadyInWaitlist
  | ok (e : WaitlistEntry)
deriving DecidableEq, Repr

/-- HTTP status the handler sends for each outcome; the duplicate rejection of
the source responds with res.status(400). -/
def JoinOutcome.httpStatus : JoinOutcome → Nat
  | .missingFields => 400
  | .restaurantNotFound => 404
  | .alreadyInWaitlist => 400
  | .ok _ => 201

/-- POST /api/waitlist/join (src/backend/src/routes/waitlist.ts).  Required
fields, restaurant existence, duplicate check over {waiting, notified,
confirmed} entries of the same phone and restaurant, then insert with
position = count of current {waiting, notified} entries + 1 and
estimated_wait = position * 15.  The inserted row's status is the DB default
waiting (the insert sets no status). -/
def waitlistJoin (st : AppState) (restaurantId : Nat) (name phone : String)
    (email : Option String) (partySize : Nat) (userId : Option Nat)
    (preferredZone notes : Option String) (newId : Nat) :
    JoinOutcome × AppState :=
  if restaurantId == 0 || name == "" || phone == "" || partySize == 0 then
    (.missingFields, st)
  else if (st.restaurants.find? (fun x => x.id == restaurantId)).isNone then
    (.restaurantNotFound, st)
  else if st.waitlist.any (fun w =>
      w.restaurantId == restaurantId && w.phone == phone &&
      ["waiting", "notified", "confirmed"].contains w.status) then
    (.alreadyInWaitlist, st)
  else
    let cnt := (st.waitlist.filter (fun w =>
      w.restaurantId == restaurantId &&
      ["waiting", "notified"].contains w.status)).length
    let position := cnt + 1
    let entry : WaitlistEntry :=
      { id := newId
        restaurantId := restaurantId
        userId := userId
        name := name
        phone := phone
        email := email
        partySize := partySize
        preferredZone := preferredZone
        notes := notes
        position := position
        estimatedWait := position * 15
        status := "waiting" }
    (.ok entry, { st with waitlist := st.waitlist ++ [entry] })

/-- Reservation row the walk-in handler inserts: seated, source walk_in,
today at the current time, estimated end_time 90 minutes later. -/
def walkInReservation (restaurantId userId tableId guestCount : Nat)
    (today : String) (now : HMS) (newId : Nat) (qrCode : String) : Reservation :=
  { id := newId
    restaurantId := restaurantId
    userId := userId
    tableId := tableId
    date := today
    time := now
    endTime := some (addMinutes now 90)
    guestCount := guestCount
    occasion := none
    specialRequest := none
    status := "seated"
    depositPaid := false
    depositAmount := none
    source := "walk_in"
    qrCode := qrCode }

/-- End-time of a reservation as the specification words it for the status
derivation: the stored end-time, defaulting to time plus the configured
service duration when absent. -/
def specEndTime (serviceDuration : Nat) (r : Reservation) : HMS :=
  match r.endTime with
  | some e => e
  | none => addMinutes r.time serviceDuration

/-- Current-reservation test exactly as the specification states it: status
arrived or seated, or status confirmed with time at or before now and now
strictly before the (possibly defaulted) end-time. -/
def specIsCurrent (serviceDuration : Nat) (now : HMS) (r : Reservation) : Bool :=
  r.status == "arrived" || r.status == "seated" ||
  (r.status == "confirmed" && hmsLe r.time now &&
    hmsLt now (specEndTime serviceDuration r))

/-- Next-reservation test as the specification states it: strictly future
time and status pending or confirmed. -/
def specIsNext (now : HMS) (r : Reservation) : Bool :=
  hmsLt now r.time && (r.status == "pending" || r.status == "confirmed")

/-- Label-and-remaining-minutes derivation exactly as the specification (and
claim C5) state it, including the service-duration default for a missing
end-time: OUT_OF_SERVICE for blocked or disabled tables, otherwise OCCUPIED
with minutes to the current reservation's end-time, otherwise RESERVED /
NEXT_RESERVATION / FREE by the 30- and 90-minute thresholds on the earliest
future pending/confirmed reservation. -/
def specDerivedStatus (serviceDuration : Nat) (table : Table)
    (reservations : List Reservation) (now : HMS) : String × Option Int :=
  let todays :=
    sortBy (fun a b => hmsLe a.time b.time)
      (reservations.filter (fun r => r.tableId == table.id))
  if table.status == "blocked" || table.status == "disabled" then
    ("OUT_OF_SERVICE", none)
  else
    match todays.find? (specIsCurrent serviceDuration now) with
    | some c => ("OCCUPIED", some (calculateRemainingMinutes now (specEndTime serviceDuration c)))
    | none =>
      match todays.find? (specIsNext now) with
      | some nx =>
        let minutesUntil := calculateRemainingMinutes now nx.time
        (if minutesUntil ≤ 30 then "RESERVED"
          else if minutesUntil ≤ 90 then "NEXT_RESERVATION"
          else "FREE",
          some minutesUntil)
      | none => ("FREE", none)

/-- Current-reservation test of the amended specification: a confirmed
reservation with no stored end-time stays current from its start time on (the
source applies no service-duration default). -/
def specAmendedIsCurrent (now : HMS) (r : Reservation) : Bool :=
  r.status == "arrived" || r.status == "seated" ||
  (r.status == "confirmed" && hmsLe r.time now &&
    (match r.endTime with
      | none => true
      | some e => hmsLt now e))

/-- Amended derivation of claim C5: as specDerivedStatus, except that a
missing end-time is not defaulted — a started confirmed reservation stays
current, and remaining minutes are reported for an occupied table only when
its current reservation has a stored end-time. -/
def specDerivedStatusAmended (table : Table) (reservations : List Reservation)
    (now : HMS) : String × Option Int :=
  let todays :=
    sortBy (fun a b => hmsLe a.time b.time)
      (reservations.filter (fun r => r.tableId == table.id))
  if table.status == "blocked" || table.status == "disabled" then
    ("OUT_OF_SERVICE", none)
  else
    match todays.find? (specAmendedIsCurrent now) with
    | some c =>
      ("OCCUPIED",
        match c.endTime with
        | some e => some (calculateRemainingMinutes now e)
        | none => none)
    | none =>
      match todays.find? (specIsNext now) with
      | some nx =>
        let minutesUntil := calculateRemainingMinutes now nx.time
        (if minutesUntil ≤ 30 then "RESERVED"
          else if minutesUntil ≤ 90 then "NEXT_RESERVATION"
          else "FREE",
          some minutesUntil)
      | none => ("FREE", none)

lemma specAmendedIsCurrent_eq (now : HMS) (r : Reservation) :
    specAmendedIsCurrent now r = isCurrentRes now r := by
  unfold specAmendedIsCurrent isCurrentRes
  cases r.endTime <;>
    simp [Bool.or_assoc, Bool.and_assoc, Bool.and_comm, Bool.and_left_comm]

lemma specIsNext_eq (now : HMS) (r : Reservation) :
    specIsNext now r = isNextRes now r := by
  unfold specIsNext isNextRes
  simp only [List.contains, List.elem]
  cases r.status == "pending" <;> cases r.status == "confirmed" <;> rfl

/-- C5 (counterexample): for a confirmed reservation with no stored end-time
whose start time is long past, the engine derives OCCUPIED while the claim's
derivation (service duration 120 minutes) derives FREE, so the derived label
does not equal the claim's derivation. -/
theorem C5_counterexample :
    (tableReport ⟨1, 1, 1, 4, true, "available"⟩
        [⟨1, 1, 1, 1, "2024-06-01", ⟨10, 0, 0⟩, none, 2, none, none,
          "confirmed", false, none, "online", "QR"⟩] ⟨23, 0, 0⟩).logicalStatus
      = "OCCUPIED" ∧
    (specDerivedStatus 120 ⟨1, 1, 1, 4, true, "available"⟩
        [⟨1, 1, 1, 1, "2024-06-01", ⟨10, 0, 0⟩, none, 2, none, none,
          "confirmed", false, none, "online", "QR"⟩] ⟨23, 0, 0⟩).1
      = "FREE" ∧
    (tableReport ⟨1, 1, 1, 4, true, "available"⟩
        [⟨1, 1, 1, 1, "2024-06-01", ⟨10, 0, 0⟩, none, 2, none, none,
          "confirmed", false, none, "online", "QR"⟩] ⟨23, 0, 0⟩).logicalStatus
      ≠ (specDerivedStatus 120 ⟨1, 1, 1, 4, true, "available"⟩
        [⟨1, 1, 1, 1, "2024-06-01", ⟨10, 0, 0⟩, none, 2, none, none,
          "confirmed", false, none, "online", "QR"⟩] ⟨23, 0, 0⟩).1 := by
  refine ⟨rfl, rfl, ?_⟩
  decide

/-- C5 (amended): for every table, reservation list and clock value, the
engine's derived label and remaining-minutes value equal the amended
derivation, in which a missing end-time is not defaulted (a started confirmed
reservation stays current for the rest of the day) and remaining minutes are
reported for an occupied table only when its current reservation stores an
end-time; the 30/90-minute thresholds, the OUT_OF_SERVICE rule and the
midnight wrap are as the claim states them. -/
theorem C5_logical_status_matches_amended_spec (table : Table)
    (reservations : List Reservation) (now : HMS) :
    (tableReport table reservations now).logicalStatus
        = (specDerivedStatusAmended table reservations now).1 ∧
    (tableReport table reservations now).remainingTimeMinutes
        = (specDerivedStatusAmended table reservations now).2 := by
  have hc : specAmendedIsCurrent now = isCurrentRes now :=
    funext (specAmendedIsCurrent_eq now)
  have hn : specIsNext now = isNextRes now := funext (specIsNext_eq now)
  unfold tableReport specDerivedStatusAmended
  rw [hc, hn]
  exact ⟨rfl, rfl⟩

/-- C10: a body status of seated is rejected by the whitelist of
PATCH /api/reservations/:id/status with HTTP 400 before any row is read, for
every store state, reservation id and caller, leaving the state unchanged. -/
theorem C10_seated_never_accepted (st : AppState) (id : Nat) (actor : Actor) :
    patchReservationStatus st id "seated" actor = (.invalidStatus, st) ∧
    PatchOutcome.httpStatus .invalidStatus = 400 := by
  exact ⟨rfl, rfl⟩

/-- C4: confirming a pending reservation makes the status handler set the
associated table's physical status to occupied, not to reserved — evaluated
at a pending reservation on table 5 whose table row starts as reserved. -/
theorem C4_confirm_sets_occupied :
    ((patchReservationStatus
        ⟨[⟨1, 1, 7, 5, "2024-06-01", ⟨19, 0, 0⟩, none, 2, none, none,
            "pending", false, none, "online", "QR"⟩],
          [⟨5, 1, 1, 4, true, "reserved"⟩], [], []⟩
        1 "confirmed" ⟨9, "super_admin", none⟩).1.httpStatus = 200) ∧
    ((patchReservationStatus
        ⟨[⟨1, 1, 7, 5, "2024-06-01", ⟨19, 0, 0⟩, none, 2, none, none,
            "pending", false, none, "online", "QR"⟩],
          [⟨5, 1, 1, 4, true, "reserved"⟩], [], []⟩
        1 "confirmed" ⟨9, "super_admin", none⟩).2.tables.map Table.status
      = ["occupied"]) ∧
    ((patchReservationStatus
        ⟨[⟨1, 1, 7, 5, "2024-06-01", ⟨19, 0, 0⟩, none, 2, none, none,
            "pending", false, none, "online", "QR"⟩],
          [⟨5, 1, 1, 4, true, "reserved"⟩], [], []⟩
        1 "confirmed" ⟨9, "super_admin", none⟩).2.tables.map Table.status
      ≠ ["reserved"]) := by
  refine ⟨rfl, rfl, ?_⟩
  decide

/-- C8: cancelling a reservation appends the cancellation reason to the
guest-visible special_request column instead of recording it out-of-band —
evaluated at a reservation whose special request is plain text before the
cancel succeeds. -/
theorem C8_cancel_appends_reason :
    ((cancelReservation
        ⟨[⟨1, 1, 7, 5, "2024-06-01", ⟨19, 0, 0⟩, none, 2, none,
            some "Sin nueces", "pending", false, none, "online", "QR"⟩],
          [⟨5, 1, 1, 4, true, "pending"⟩], [], []⟩
        1 (some "cliente cancelo") ⟨7, "customer", none⟩).1 = .ok) ∧
    ((findReservation
        (cancelReservation
          ⟨[⟨1, 1, 7, 5, "2024-06-01", ⟨19, 0, 0⟩, none, 2, none,
              some "Sin nueces", "pending", false, none, "online", "QR"⟩],
            [⟨5, 1, 1, 4, true, "pending"⟩], [], []⟩
          1 (some "cliente cancelo") ⟨7, "customer", none⟩).2
        1).map Reservation.specialRequest
      = some (some "Sin nueces\n\n[Cancelled: cliente cancelo]")) ∧
    ((findReservation
        (cancelReservation
          ⟨[⟨1, 1, 7, 5, "2024-06-01", ⟨19, 0, 0⟩, none, 2, none,
              some "Sin nueces", "pending", false, none, "online", "QR"⟩],
            [⟨5, 1, 1, 4, true, "pending"⟩], [], []⟩
          1 (some "cliente cancelo") ⟨7, "customer", none⟩).2
        1).map Reservation.specialRequest
      ≠ some (some "Sin nueces")) := by
  refine ⟨rfl, rfl, ?_⟩
  decide

lemma any_slotConflicts_iff (l : List Reservation) (tid : Nat) (d : String)
    (tm : HMS) :
    (l.any (fun r => slotConflicts r tid d tm) = true) ↔
    ∃ r ∈ l, r.tableId = tid ∧ r.date = d ∧ r.time = tm ∧
      r.status ≠ "cancelled" ∧ r.status ≠ "no_show" := by
  simp [List.any_eq_true, slotConflicts, not_or, and_assoc]

/-- C1 (counterexample): a slot whose only reservation is completed still
makes Create fail with Conflict (HTTP 409): the conflict query excludes only
cancelled and no_show, so a completed reservation keeps blocking its slot. -/
theorem C1_counterexample :
    ((⟨[⟨1, 1, 7, 5, "2024-06-01", ⟨19, 0, 0⟩, none, 2, none, none,
          "completed", false, none, "online", "QR1"⟩],
        [⟨5, 1, 1, 4, true, "available"⟩], [], []⟩ : AppState).reservations.map
        Reservation.status = ["completed"]) ∧
    ((createReservation
        ⟨[⟨1, 1, 7, 5, "2024-06-01", ⟨19, 0, 0⟩, none, 2, none, none,
            "completed", false, none, "online", "QR1"⟩],
          [⟨5, 1, 1, 4, true, "available"⟩], [], []⟩
        ⟨1, 5, "2024-06-01", ⟨19, 0, 0⟩, 2, none, none, false, none⟩
        9 100 "QR2").1 = .conflict) ∧
    CreateOutcome.httpStatus .conflict = 409 := by
  exact ⟨rfl, rfl, rfl⟩

/-- C1 (amended): Create fails with Conflict exactly when a reservation whose
status is neither cancelled nor no_show — completed reservations included —
already exists for the exact same (tableId, date, time); a Conflict leaves the
store unchanged, and when no such reservation exists Create inserts a new
reservation with initial status confirmed if depositPaid is set and pending
otherwise. -/
theorem C1_create_conflict_amended (st : AppState) (inp : CreateInput)
    (userId newId : Nat) (qr : String) (hg : inp.guestCount ≠ 0) :
    ((createReservation st inp userId newId qr).1 = .conflict ↔
      ∃ r ∈ st.reservations, r.tableId = inp.tableId ∧ r.date = inp.date ∧
        r.time = inp.time ∧ r.status ≠ "cancelled" ∧ r.status ≠ "no_show") ∧
    ((createReservation st inp userId newId qr).1 = .conflict →
      (createReservation st inp userId newId qr).2 = st) ∧
    ((¬ ∃ r ∈ st.reservations, r.tableId = inp.tableId ∧ r.date = inp.date ∧
        r.time = inp.time ∧ r.status ≠ "cancelled" ∧ r.status ≠ "no_show") →
      ∃ nr, (createReservation st inp userId newId qr).1 = .created nr ∧
        nr.status = (if inp.depositPaid then "confirmed" else "pending") ∧
        nr ∈ (createReservation st inp userId newId qr).2.reservations) := by
  have h0 : (inp.guestCount == 0) = false := by
    simpa using hg
  unfold createReservation
  rw [h0]
  simp only [Bool.false_eq_true, if_false]
  cases hconf : st.reservations.any
      (fun r => slotConflicts r inp.tableId inp.date inp.time) with
  | true =>
    rw [← any_slotConflicts_iff st.reservations inp.tableId inp.date inp.time]
    simp [hconf]
  | false =>
    rw [← any_slotConflicts_iff st.reservations inp.tableId inp.date inp.time]
    refine ⟨by simp [hconf], by simp [hconf], fun _ => ?_⟩
    exact ⟨{ id := newId, restaurantId := inp.restaurantId, userId := userId,
             tableId := inp.tableId, date := inp.date, time := inp.time,
             endTime := none, guestCount := inp.guestCount,
             occasion := inp.occasion, specialRequest := inp.specialRequest,
             status := if inp.depositPaid then "confirmed" else "pending",
             depositPaid := inp.depositPaid, depositAmount := inp.depositAmount,
             source := "online", qrCode := qr },
           by simp [hconf], rfl, by simp [hconf, updateTableStatus]⟩

/-- C1 (witness): a slot whose only reservation is cancelled accepts a new
reservation, inserted with status pending when no deposit is paid. -/
theorem C1_create_conflict_amended_witness :
    ∃ nr, (createReservation
        ⟨[⟨1, 1, 7, 5, "2024-06-01", ⟨19, 0, 0⟩, none, 2, none, none,
            "cancelled", false, none, "online", "QR1"⟩],
          [⟨5, 1, 1, 4, true, "available"⟩], [], []⟩
        ⟨1, 5, "2024-06-01", ⟨19, 0, 0⟩, 2, none, none, false, none⟩
        9 100 "QR2").1 = .created nr ∧
      nr.status = "pending" ∧
      nr ∈ (createReservation
        ⟨[⟨1, 1, 7, 5, "2024-06-01", ⟨19, 0, 0⟩, none, 2, none, none,
            "cancelled", false, none, "online", "QR1"⟩],
          [⟨5, 1, 1, 4, true, "available"⟩], [], []⟩
        ⟨1, 5, "2024-06-01", ⟨19, 0, 0⟩, 2, none, none, false, none⟩
        9 100 "QR2").2.reservations := by
  have h := C1_create_conflict_amended
    ⟨[⟨1, 1, 7, 5, "2024-06-01", ⟨19, 0, 0⟩, none, 2, none, none,
        "cancelled", false, none, "online", "QR1"⟩],
      [⟨5, 1, 1, 4, true, "available"⟩], [], []⟩
    ⟨1, 5, "2024-06-01", ⟨19, 0, 0⟩, 2, none, none, false, none⟩
    9 100 "QR2" (by decide)
  have hne := h.2.2 (by decide)
  simpa using hne

lemma find?_update_by_id (l : List Reservation) (id : Nat)
    (f : Reservation → Reservation) (hf : ∀ r, (f r).id = r.id) :
    (l.map (fun r => if r.id == id then f r else r)).find? (fun r => r.id == id)
      = (l.find? (fun r => r.id == id)).map f := by
  induction l with
  | nil => rfl
  | cons a l ih =>
    cases hb : (a.id == id) with
    | true =>
      simp only [List.map, hb, if_true, List.find?]
      rw [hf a, hb]
      simp [List.find?_cons_of_pos, hb]
    | false =>
      simp only [List.map, hb, Bool.false_eq_true, if_false, List.find?]
      exact ih

/-- Reservation lookups see through table-status updates: updateTableStatus
touches only the tables list. -/
lemma findReservation_updateTableStatus (st : AppState) (tid : Nat)
    (s : String) (id : Nat) :
    findReservation (updateTableStatus st tid s) id = findReservation st id := rfl

/-- C2 (counterexample): PATCH /api/reservations/:id/status performs no
terminal-status check — a completed reservation is moved back to pending with
HTTP 200, where the claim demands an InvalidState failure with the status
unchanged. -/
theorem C2_counterexample :
    ((patchReservationStatus
        ⟨[⟨1, 1, 7, 5, "2024-06-01", ⟨19, 0, 0⟩, none, 2, none, none,
            "completed", false, none, "online", "QR"⟩],
          [⟨5, 1, 1, 4, true, "available"⟩], [], []⟩
        1 "pending" ⟨9, "super_admin", none⟩).1.httpStatus = 200) ∧
    ((findReservation
        (patchReservationStatus
          ⟨[⟨1, 1, 7, 5, "2024-06-01", ⟨19, 0, 0⟩, none, 2, none, none,
              "completed", false, none, "online", "QR"⟩],
            [⟨5, 1, 1, 4, true, "available"⟩], [], []⟩
          1 "pending" ⟨9, "super_admin", none⟩).2
        1).map Reservation.status = some "pending") ∧
    ((findReservation
        (patchReservationStatus
          ⟨[⟨1, 1, 7, 5, "2024-06-01", ⟨19, 0, 0⟩, none, 2, none, none,
              "completed", false, none, "online", "QR"⟩],
            [⟨5, 1, 1, 4, true, "available"⟩], [], []⟩
          1 "pending" ⟨9, "super_admin", none⟩).2
        1).map Reservation.status ≠ some "completed") := by
  refine ⟨rfl, rfl, ?_⟩
  decide

/-- C2 (amended): terminal finality holds for the cancel endpoint only — an
authorized cancel of a completed, cancelled or no_show reservation fails with
InvalidState (HTTP 400) and leaves the store unchanged — while the status
endpoint performs no terminal check: any whitelisted status is written over a
terminal reservation with HTTP 200. -/
theorem C2_terminal_checks_amended (st : AppState) (id : Nat)
    (rsv : Reservation) (actor : Actor)
    (hfind : findReservation st id = some rsv)
    (hterm : terminalStatuses.contains rsv.status = true) :
    (∀ reason,
      (rsv.userId = actor.id ∨ actor.role = "restaurant_admin" ∨
        actor.role = "super_admin") →
      (actor.role = "restaurant_admin" → actor.restaurantId = some rsv.restaurantId) →
      cancelReservation st id reason actor = (.invalidState, st)) ∧
    (∀ s, validStatuses.contains s = true →
      (actor.role = "restaurant_admin" → actor.restaurantId = some rsv.restaurantId) →
      (patchReservationStatus st id s actor).1 = .ok { rsv with status := s } ∧
      findReservation (patchReservationStatus st id s actor).2 id
        = some { rsv with status := s }) := by
  constructor
  · intro reason hauth hctx
    have h1 : (rsv.userId != actor.id && actor.role != "restaurant_admin" &&
        actor.role != "super_admin") = false := by
      rcases hauth with h | h | h <;> simp [h]
    have h2 : (actor.role == "restaurant_admin" &&
        some rsv.restaurantId != actor.restaurantId) = false := by
      by_cases h : actor.role = "restaurant_admin"
      · simp [h, hctx h]
      · simp [h]
    have hmem : rsv.status ∈ terminalStatuses := by simpa using hterm
    unfold cancelReservation
    rw [hfind]
    simp [h1, h2, hmem]
  · intro s hs hctx
    have h2 : (actor.role == "restaurant_admin" &&
        some rsv.restaurantId != actor.restaurantId) = false := by
      by_cases h : actor.role = "restaurant_admin"
      · simp [h, hctx h]
      · simp [h]
    have hup := find?_update_by_id st.reservations id
      (fun r => { r with status := s }) (fun r => rfl)
    unfold patchReservationStatus
    rw [hs, hfind]
    simp only [Bool.not_true, Bool.false_eq_true, if_false, h2]
    constructor
    · simp
    cases htf : tableStatusFor s with
    | some ts =>
      simp only [htf, updateTableStatus, updateReservation, findReservation]
      rw [hup]
      rw [show st.reservations.find? (fun r => r.id == id) = some rsv from hfind]
      rfl
    | none =>
      simp only [htf, updateTableStatus, updateReservation, findReservation]
      rw [hup]
      rw [show st.reservations.find? (fun r => r.id == id) = some rsv from hfind]
      rfl

/-- C2 (witness): a completed reservation rejects cancel with InvalidState,
while the status endpoint moves it back to pending. -/
theorem C2_terminal_checks_amended_witness :
    (cancelReservation
        ⟨[⟨1, 1, 7, 5, "2024-06-01", ⟨19, 0, 0⟩, none, 2, none, none,
            "completed", false, none, "online", "QR"⟩],
          [⟨5, 1, 1, 4, true, "available"⟩], [], []⟩
        1 (some "late") ⟨9, "super_admin", none⟩
      = (.invalidState,
          ⟨[⟨1, 1, 7, 5, "2024-06-01", ⟨19, 0, 0⟩, none, 2, none, none,
              "completed", false, none, "online", "QR"⟩],
            [⟨5, 1, 1, 4, true, "available"⟩], [], []⟩)) ∧
    ((patchReservationStatus
        ⟨[⟨1, 1, 7, 5, "2024-06-01", ⟨19, 0, 0⟩, none, 2, none, none,
            "completed", false, none, "online", "QR"⟩],
          [⟨5, 1, 1, 4, true, "available"⟩], [], []⟩
        1 "pending" ⟨9, "super_admin", none⟩).1
      = .ok ⟨1, 1, 7, 5, "2024-06-01", ⟨19, 0, 0⟩, none, 2, none, none,
          "pending", false, none, "online", "QR"⟩) := by
  have h := C2_terminal_checks_amended
    ⟨[⟨1, 1, 7, 5, "2024-06-01", ⟨19, 0, 0⟩, none, 2, none, none,
        "completed", false, none, "online", "QR"⟩],
      [⟨5, 1, 1, 4, true, "available"⟩], [], []⟩
    1
    ⟨1, 1, 7, 5, "2024-06-01", ⟨19, 0, 0⟩, none, 2, none, none,
      "completed", false, none, "online", "QR"⟩
    ⟨9, "super_admin", none⟩ rfl (by decide)
  exact ⟨h.1 (some "late") (Or.inr (Or.inr rfl)) (by decide),
    (h.2 "pending" (by decide) (by decide)).1⟩

/-- C3 (counterexample): Create runs no capacity check — a request for 10
guests on a free table of capacity 2 succeeds with HTTP 201 and inserts the
reservation, where the claim demands a ValidationError. -/
theorem C3_counterexample :
    ((⟨[], [⟨5, 1, 1, 2, true, "available"⟩], [], []⟩ : AppState).tables.map
        Table.capacity = [2]) ∧
    ((createReservation ⟨[], [⟨5, 1, 1, 2, true, "available"⟩], [], []⟩
        ⟨1, 5, "2024-06-01", ⟨19, 0, 0⟩, 10, none, none, false, none⟩
        9 100 "QR").1.httpStatus = 201) ∧
    ((createReservation ⟨[], [⟨5, 1, 1, 2, true, "available"⟩], [], []⟩
        ⟨1, 5, "2024-06-01", ⟨19, 0, 0⟩, 10, none, none, false, none⟩
        9 100 "QR").1.httpStatus ≠ 400) ∧
    (∃ nr, (createReservation ⟨[], [⟨5, 1, 1, 2, true, "available"⟩], [], []⟩
        ⟨1, 5, "2024-06-01", ⟨19, 0, 0⟩, 10, none, none, false, none⟩
        9 100 "QR").1 = .created nr ∧ nr.guestCount = 10) := by
  exact ⟨rfl, rfl, by decide, ⟨_, rfl, rfl⟩⟩

/-- C3 (amended): Reschedule with a requested guestCount exceeding the
capacity of the reservation's table always fails with HTTP 400 and updates
nothing, regardless of the requested date and time and of any conflicts
there; Create, by contrast, performs no capacity check at all: with any non-zero
guestCount and a free slot it inserts the reservation unconditionally. -/
theorem C3_capacity_amended :
    (∀ (st : AppState) (id : Nat) (rsv : Reservation) (table : Table)
        (actor : Actor) (gc : Nat) (date : Option String) (time : Option HMS),
      findReservation st id = some rsv →
      (rsv.userId = actor.id ∨ actor.role = "super_admin") →
      st.tables.find? (fun t => t.id == rsv.tableId) = some table →
      table.capacity < gc →
      (rescheduleReservation st id date time (some gc) actor).1.httpStatus = 400 ∧
      (rescheduleReservation st id date time (some gc) actor).2 = st) ∧
    (∀ (st : AppState) (inp : CreateInput) (userId newId : Nat) (qr : String),
      inp.guestCount ≠ 0 →
      (st.reservations.any
        (fun r => slotConflicts r inp.tableId inp.date inp.time)) = false →
      ∃ nr, (createReservation st inp userId newId qr).1 = .created nr ∧
        nr.guestCount = inp.guestCount) := by
  constructor
  · intro st id rsv table actor gc date time hfind hauth htable hcap
    have h0 : (date == none && time == none &&
        ((some gc : Option Nat) == none)) = false := by
      simp
    have h1 : (rsv.userId != actor.id && actor.role != "super_admin") = false := by
      rcases hauth with h | h <;> simp [h]
    unfold rescheduleReservation
    rw [hfind]
    simp only [h0, Bool.false_eq_true, if_false, h1]
    split
    · exact ⟨rfl, rfl⟩
    · have hcap2 : (((some gc : Option Nat)).isSome &&
          (match st.tables.find? (fun t => t.id == rsv.tableId) with
            | some table => decide (table.capacity < (some gc).getD rsv.guestCount)
            | none => false)) = true := by
        rw [htable]
        simpa using hcap
      rw [hcap2]
      exact ⟨rfl, rfl⟩
  · intro st inp userId newId qr hg hconf
    have h0 : (inp.guestCount == 0) = false := by simpa using hg
    unfold createReservation
    rw [h0]
    simp only [Bool.false_eq_true, if_false]
    exact ⟨{ id := newId, restaurantId := inp.restaurantId, userId := userId,
             tableId := inp.tableId, date := inp.date, time := inp.time,
             endTime := none, guestCount := inp.guestCount,
             occasion := inp.occasion, specialRequest := inp.specialRequest,
             status := if inp.depositPaid then "confirmed" else "pending",
             depositPaid := inp.depositPaid, depositAmount := inp.depositAmount,
             source := "online", qrCode := qr },
           by simp [hconf], rfl⟩

/-- C3 (witness): rescheduling a reservation on a capacity-2 table to 10
guests fails with 400 and changes nothing, while creating a fresh 10-guest
reservation on a capacity-2 table succeeds. -/
theorem C3_capacity_amended_witness :
    ((rescheduleReservation
        ⟨[⟨1, 1, 7, 5, "2024-06-01", ⟨19, 0, 0⟩, none, 2, none, none,
            "pending", false, none, "online", "QR"⟩],
          [⟨5, 1, 1, 2, true, "pending"⟩], [], []⟩
        1 none none (some 10) ⟨9, "super_admin", none⟩).1.httpStatus = 400 ∧
      (rescheduleReservation
        ⟨[⟨1, 1, 7, 5, "2024-06-01", ⟨19, 0, 0⟩, none, 2, none, none,
            "pending", false, none, "online", "QR"⟩],
          [⟨5, 1, 1, 2, true, "pending"⟩], [], []⟩
        1 none none (some 10) ⟨9, "super_admin", none⟩).2
      = ⟨[⟨1, 1, 7, 5, "2024-06-01", ⟨19, 0, 0⟩, none, 2, none, none,
            "pending", false, none, "online", "QR"⟩],
          [⟨5, 1, 1, 2, true, "pending"⟩], [], []⟩) ∧
    (∃ nr, (createReservation ⟨[], [⟨6, 1, 2, 2, true, "available"⟩], [], []⟩
        ⟨1, 6, "2024-06-02", ⟨20, 0, 0⟩, 10, none, none, false, none⟩
        9 101 "QR3").1 = .created nr ∧ nr.guestCount = 10) := by
  refine ⟨C3_capacity_amended.1
    ⟨[⟨1, 1, 7, 5, "2024-06-01", ⟨19, 0, 0⟩, none, 2, none, none,
        "pending", false, none, "online", "QR"⟩],
      [⟨5, 1, 1, 2, true, "pending"⟩], [], []⟩
    1
    ⟨1, 1, 7, 5, "2024-06-01", ⟨19, 0, 0⟩, none, 2, none, none,
      "pending", false, none, "online", "QR"⟩
    ⟨5, 1, 1, 2, true, "pending"⟩
    ⟨9, "super_admin", none⟩ 10 none none rfl (Or.inr rfl) rfl (by decide),
    C3_capacity_amended.2 ⟨[], [⟨6, 1, 2, 2, true, "available"⟩], [], []⟩
      ⟨1, 6, "2024-06-02", ⟨20, 0, 0⟩, 10, none, none, false, none⟩
      9 101 "QR3" (by decide) (by decide)⟩

/-- C7 (counterexample): the available-tables endpoint filters out a table
whose only reservation at the slot is completed (a terminal status), and a
request that matches zero tables still answers HTTP 200 with an empty list
instead of failing with NotFound. -/
theorem C7_counterexample :
    (findAvailableTables
        ⟨[⟨1, 1, 7, 1, "2024-06-01", ⟨19, 0, 0⟩, none, 2, none, none,
            "completed", false, none, "online", "QR"⟩],
          [⟨1, 1, 1, 2, true, "available"⟩], [], []⟩
        1 "2024-06-01" ⟨19, 0, 0⟩ 2 = []) ∧
    ((⟨[⟨1, 1, 7, 1, "2024-06-01", ⟨19, 0, 0⟩, none, 2, none, none,
          "completed", false, none, "online", "QR"⟩],
        [⟨1, 1, 1, 2, true, "available"⟩], [], []⟩ : AppState).reservations.map
        Reservation.status = ["completed"]) ∧
    (findAvailableTables
        ⟨[⟨1, 1, 7, 1, "2024-06-01", ⟨19, 0, 0⟩, none, 2, none, none,
            "completed", false, none, "online", "QR"⟩],
          [⟨1, 1, 1, 2, true, "available"⟩], [], []⟩
        1 "2024-06-01" ⟨19, 0, 0⟩ 4 = []) ∧
    ((getAvailableTables
        ⟨[⟨1, 1, 7, 1, "2024-06-01", ⟨19, 0, 0⟩, none, 2, none, none,
            "completed", false, none, "online", "QR"⟩],
          [⟨1, 1, 1, 2, true, "available"⟩], [], []⟩
        1 "2024-06-01" ⟨19, 0, 0⟩ 4).httpStatus = 200) ∧
    ((getAvailableTables
        ⟨[⟨1, 1, 7, 1, "2024-06-01", ⟨19, 0, 0⟩, none, 2, none, none,
            "completed", false, none, "online", "QR"⟩],
          [⟨1, 1, 1, 2, true, "available"⟩], [], []⟩
        1 "2024-06-01" ⟨19, 0, 0⟩ 4).httpStatus ≠ 404) := by
  refine ⟨rfl, rfl, rfl, rfl, ?_⟩
  decide

/-- C7 (amended): the endpoint always answers HTTP 200 (it has no NotFound
branch, even when the restaurant has zero matching tables), and the list it
returns holds exactly the active tables of the restaurant with capacity at
least the requested party size that have no reservation at exactly
(date, time) whose status is other than cancelled or no_show — completed
reservations still block their slot. -/
theorem C7_available_tables_amended (st : AppState) (rid : Nat) (d : String)
    (tm : HMS) (g : Nat) (tbl : Table) :
    ((getAvailableTables st rid d tm g).httpStatus = 200) ∧
    (tbl ∈ findAvailableTables st rid d tm g ↔
      tbl ∈ st.tables ∧ tbl.restaurantId = rid ∧ g ≤ tbl.capacity ∧
        tbl.isActive = true ∧
        ¬ ∃ r ∈ st.reservations, r.restaurantId = rid ∧ r.tableId = tbl.id ∧
          r.date = d ∧ r.time = tm ∧ r.status ≠ "cancelled" ∧
          r.status ≠ "no_show") := by
  refine ⟨rfl, ?_⟩
  unfold findAvailableTables
  simp [List.mem_filter, List.mem_map, List.contains, List.elem_iff, and_assoc,
    not_or]
  intro hmem
  constructor
  · rintro ⟨hno, hrid, hcap, hact⟩
    refine ⟨hrid, hcap, hact, ?_⟩
    intro x hx hxr hxt hxd hxtm hxc
    by_contra hns
    exact hno x hx hxr hxd hxtm hxc hns hxt
  · rintro ⟨hrid, hcap, hact, hno⟩
    refine ⟨?_, hrid, hcap, hact⟩
    intro x hx hxr hxd hxtm hxc hxns hxt
    exact hxns (hno x hx hxr hxt hxd hxtm hxc)

/-- C9 (counterexample): joining the waitlist with a phone that already has a
waiting entry for the restaurant is rejected, but with HTTP 400, not with the
409 of the error taxonomy the claim cites. -/
theorem C9_counterexample :
    ((waitlistJoin
        ⟨[], [], [⟨1, []⟩],
          [⟨1, 1, none, "Ana", "555-0100", none, 2, none, none, 1, 15,
            "waiting"⟩]⟩
        1 "Luis" "555-0100" none 2 none none none 2).1 = .alreadyInWaitlist) ∧
    ((waitlistJoin
        ⟨[], [], [⟨1, []⟩],
          [⟨1, 1, none, "Ana", "555-0100", none, 2, none, none, 1, 15,
            "waiting"⟩]⟩
        1 "Luis" "555-0100" none 2 none none none 2).1.httpStatus = 400) ∧
    ((waitlistJoin
        ⟨[], [], [⟨1, []⟩],
          [⟨1, 1, none, "Ana", "555-0100", none, 2, none, none, 1, 15,
            "waiting"⟩]⟩
        1 "Luis" "555-0100" none 2 none none none 2).1.httpStatus ≠ 409) ∧
    ((waitlistJoin
        ⟨[], [], [⟨1, []⟩],
          [⟨1, 1, none, "Ana", "555-0100", none, 2, none, none, 1, 15,
            "waiting"⟩]⟩
        1 "Luis" "555-0100" none 2 none none none 2).2.waitlist.length = 1) := by
  refine ⟨rfl, rfl, ?_, rfl⟩
  decide

/-- C9 (amended): with the required fields present and the restaurant found,
Join is rejected — with HTTP 400, not 409 — exactly when the same phone
already has a waiting, notified or confirmed entry for that restaurant, and
the rejection creates nothing; otherwise it appends an entry whose position is
the count of the restaurant's current waiting/notified entries plus one and
whose estimated wait is position times 15. -/
theorem C9_waitlist_join_amended (st : AppState) (rid : Nat)
    (name phone : String) (email : Option String) (ps : Nat)
    (uid : Option Nat) (pz nts : Option String) (newId : Nat)
    (hrid : rid ≠ 0) (hname : name ≠ "") (hphone : phone ≠ "") (hps : ps ≠ 0)
    (hrest : (st.restaurants.find? (fun x => x.id == rid)).isSome) :
    ((waitlistJoin st rid name phone email ps uid pz nts newId).1
        = .alreadyInWaitlist ↔
      ∃ w ∈ st.waitlist, w.restaurantId = rid ∧ w.phone = phone ∧
        (w.status = "waiting" ∨ w.status = "notified" ∨
          w.status = "confirmed")) ∧
    ((waitlistJoin st rid name phone email ps uid pz nts newId).1
        = .alreadyInWaitlist →
      (waitlistJoin st rid name phone email ps uid pz nts newId).2 = st) ∧
    (JoinOutcome.httpStatus .alreadyInWaitlist = 400) ∧
    ((¬ ∃ w ∈ st.waitlist, w.restaurantId = rid ∧ w.phone = phone ∧
        (w.status = "waiting" ∨ w.status = "notified" ∨
          w.status = "confirmed")) →
      ∃ e, (waitlistJoin st rid name phone email ps uid pz nts newId).1
          = .ok e ∧
        e.position = (st.waitlist.filter (fun w => w.restaurantId == rid &&
          (["waiting", "notified"].contains w.status))).length + 1 ∧
        e.estimatedWait = e.position * 15 ∧
        (waitlistJoin st rid name phone email ps uid pz nts newId).2.waitlist
          = st.waitlist ++ [e]) := by
  have h0 : (rid == 0 || name == "" || phone == "" || ps == 0) = false := by
    simp [hrid, hname, hphone, hps]
  have h1 : (st.restaurants.find? (fun x => x.id == rid)).isNone = false := by
    rcases Option.isSome_iff_exists.mp hrest with ⟨x, hx⟩
    rw [hx]
    rfl
  have hdup : (st.waitlist.any (fun w =>
      w.restaurantId == rid && w.phone == phone &&
      (["waiting", "notified", "confirmed"].contains w.status)) = true) ↔
      ∃ w ∈ st.waitlist, w.restaurantId = rid ∧ w.phone = phone ∧
        (w.status = "waiting" ∨ w.status = "notified" ∨
          w.status = "confirmed") := by
    simp [List.any_eq_true, and_assoc]
  unfold waitlistJoin
  rw [h0, h1]
  simp only [Bool.false_eq_true, if_false]
  cases hd : st.waitlist.any (fun w =>
      w.restaurantId == rid && w.phone == phone &&
      (["waiting", "notified", "confirmed"].contains w.status)) with
  | true =>
    have hx := hdup.mp hd
    exact ⟨⟨fun _ => hx, fun _ => rfl⟩, fun _ => rfl, rfl,
      fun hcon => (hcon hx).elim⟩
  | false =>
    have hnx : ¬ ∃ w ∈ st.waitlist, w.restaurantId = rid ∧ w.phone = phone ∧
        (w.status = "waiting" ∨ w.status = "notified" ∨
          w.status = "confirmed") :=
      fun hx => absurd (hdup.mpr hx) (by rw [hd]; exact Bool.false_ne_true)
    simp only [Bool.false_eq_true, if_false]
    refine ⟨iff_of_false (fun hk => JoinOutcome.noConfusion hk) hnx,
      fun hk => JoinOutcome.noConfusion hk, rfl, fun _ => ?_⟩
    exact ⟨{ id := newId, restaurantId := rid, userId := uid, name := name,
             phone := phone, email := email, partySize := ps,
             preferredZone := pz, notes := nts,
             position := (st.waitlist.filter (fun w => w.restaurantId == rid &&
               (["waiting", "notified"].contains w.status))).length + 1,
             estimatedWait := ((st.waitlist.filter (fun w =>
               w.restaurantId == rid &&
               (["waiting", "notified"].contains w.status))).length + 1) * 15,
             status := "waiting" },
           rfl, rfl, rfl, rfl⟩

/-- C9 (witness): a first join for a fresh phone is accepted at position 1
with a 15-minute estimate. -/
theorem C9_waitlist_join_amended_witness :
    ∃ e, (waitlistJoin ⟨[], [], [⟨1, []⟩],
        [⟨1, 1, none, "Ana", "555-0100", none, 2, none, none, 1, 15,
          "waiting"⟩]⟩
        1 "Luis" "555-0199" none 2 none none none 2).1 = .ok e ∧
      e.position = 2 ∧ e.estimatedWait = 30 := by
  have h := C9_waitlist_join_amended ⟨[], [], [⟨1, []⟩],
      [⟨1, 1, none, "Ana", "555-0100", none, 2, none, none, 1, 15,
        "waiting"⟩]⟩
    1 "Luis" "555-0199" none 2 none none none 2
    (by decide) (by decide) (by decide) (by decide) (by decide)
  rcases h.2.2.2 (by decide) with ⟨e, he1, he2, he3, _⟩
  exact ⟨e, he1, by rw [he2]; rfl, by rw [he3, he2]; rfl⟩

lemma tableReport_label_invariants (table : Table) (resvs : List Reservation)
    (now : HMS) :
    ((tableReport table resvs now).logicalStatus = "NEXT_RESERVATION" →
      (tableReport table resvs now).nextReservation.isSome = true ∧
      ∃ m, (tableReport table resvs now).remainingTimeMinutes = some m ∧
        30 < m ∧ m ≤ 90) ∧
    ((tableReport table resvs now).logicalStatus = "FREE" →
      (tableReport table resvs now).nextReservation.isSome = true →
      ∃ m, (tableReport table resvs now).remainingTimeMinutes = some m ∧
        90 < m) := by
  unfold tableReport
  simp only []
  cases hb : (table.status == "blocked" || table.status == "disabled") with
  | true =>
    constructor
    · intro h
      simp at h
    · intro h
      simp at h
  | false =>
    cases hcur : List.find? (isCurrentRes now)
        (sortBy (fun a b => hmsLe a.time b.time)
          (resvs.filter (fun r => r.tableId == table.id))) with
    | some c =>
      constructor
      · intro h
        simp at h
      · intro h
        simp at h
    | none =>
      cases hnext : List.find? (isNextRes now)
          (sortBy (fun a b => hmsLe a.time b.time)
            (resvs.filter (fun r => r.tableId == table.id))) with
      | none =>
        constructor
        · intro h
          simp at h
        · intro _ h
          simp at h
      | some nx =>
        by_cases h30 : calculateRemainingMinutes now nx.time ≤ 30
        · constructor
          · intro h
            simp [h30] at h
          · intro h
            simp [h30] at h
        · by_cases h90 : calculateRemainingMinutes now nx.time ≤ 90
          · constructor
            · intro _
              exact ⟨rfl, calculateRemainingMinutes now nx.time, rfl,
                by omega, h90⟩
            · intro h
              simp [h30, h90] at h
          · constructor
            · intro h
              simp [h30, h90] at h
            · intro _ _
              exact ⟨calculateRemainingMinutes now nx.time, rfl, by omega⟩

lemma report_entry_shape (st : AppState) (rid : Nat) (today : String)
    (now : HMS) (tid : Nat) (ts : TableStatusReport)
    (hfind : (getRestaurantStatusReport st rid today now).find?
        (fun t => t.tableId == tid) = some ts) :
    ∃ table, ts = tableReport table
      (st.reservations.filter (fun r =>
        r.restaurantId == rid && r.date == today &&
        !(r.status == "cancelled" || r.status == "no_show"))) now := by
  have hmem := List.mem_of_find?_eq_some hfind
  unfold getRestaurantStatusReport at hmem
  simp only [List.mem_map] at hmem
  rcases hmem with ⟨t, _, hts⟩
  exact ⟨t, hts.symm⟩

/-- C6: provided the walk-in handler finds the table's entry in the status
report and the party size is non-zero, the walk-in succeeds exactly when the
entry's label is FREE, or is NEXT_RESERVATION with a remaining-minutes value
of at least 60; on success it inserts a seated walk_in reservation for today
at the current time and sets the table occupied, and in every other case it
fails with HTTP 409 and leaves the store unchanged. -/
theorem C6_walk_in_guard (st : AppState) (tableId restaurantId guestCount : Nat)
    (today : String) (now : HMS) (userId newId : Nat) (qr : String)
    (ts : TableStatusReport)
    (hfind : (getRestaurantStatusReport st restaurantId today now).find?
        (fun t => t.tableId == tableId) = some ts)
    (hg : guestCount ≠ 0) :
    ((ts.logicalStatus = "FREE" ∨
        (ts.logicalStatus = "NEXT_RESERVATION" ∧
          ∃ m, ts.remainingTimeMinutes = some m ∧ 60 ≤ m)) →
      assignWalkIn st tableId restaurantId guestCount today now userId newId qr
        = (.ok (walkInReservation restaurantId userId tableId guestCount
              today now newId qr),
            updateTableStatus
              { st with reservations := st.reservations ++
                  [walkInReservation restaurantId userId tableId guestCount
                    today now newId qr] }
              tableId "occupied")) ∧
    ((¬ (ts.logicalStatus = "FREE" ∨
        (ts.logicalStatus = "NEXT_RESERVATION" ∧
          ∃ m, ts.remainingTimeMinutes = some m ∧ 60 ≤ m))) →
      (assignWalkIn st tableId restaurantId guestCount today now userId
          newId qr).1.httpStatus = 409 ∧
      (assignWalkIn st tableId restaurantId guestCount today now userId
          newId qr).2 = st) := by
  obtain ⟨table, hts⟩ :=
    report_entry_shape st restaurantId today now tableId ts hfind
  have hinv := tableReport_label_invariants table
    (st.reservations.filter (fun r =>
      r.restaurantId == restaurantId && r.date == today &&
      !(r.status == "cancelled" || r.status == "no_show"))) now
  rw [← hts] at hinv
  have h0 : (guestCount == 0) = false := by simpa using hg
  unfold assignWalkIn
  rw [h0]
  simp only [Bool.false_eq_true, if_false]
  rw [hfind]
  simp only []
  constructor
  · rintro (hfree | ⟨hnext, m, hm, hm60⟩)
    · have hc1 : (ts.logicalStatus != "FREE" &&
          ts.logicalStatus != "NEXT_RESERVATION") = false := by
        simp [hfree]
      rw [hc1]
      simp only [Bool.false_eq_true, if_false]
      have hc2 : (ts.nextReservation.isSome &&
          decide ((ts.remainingTimeMinutes.getD 0) < 60)) = false := by
        cases hs : ts.nextReservation.isSome with
        | false => rfl
        | true =>
          rcases hinv.2 hfree hs with ⟨m, hm, h90⟩
          simp only [hm, Bool.true_and, Option.getD_some]
          simpa using by omega
      rw [hc2]
      rfl
    · have hc1 : (ts.logicalStatus != "FREE" &&
          ts.logicalStatus != "NEXT_RESERVATION") = false := by
        simp [hnext]
      rw [hc1]
      simp only [Bool.false_eq_true, if_false]
      have hc2 : (ts.nextReservation.isSome &&
          decide ((ts.remainingTimeMinutes.getD 0) < 60)) = false := by
        simp only [hm, Option.getD_some]
        simpa using fun _ => by omega
      rw [hc2]
      rfl
  · intro hnot
    by_cases hfree : ts.logicalStatus = "FREE"
    · exact absurd (Or.inl hfree) hnot
    by_cases hnext : ts.logicalStatus = "NEXT_RESERVATION"
    · rcases hinv.1 hnext with ⟨hsome, m, hm, hm30, hm90⟩
      have hm60 : m < 60 := by
        by_contra hge
        exact hnot (Or.inr ⟨hnext, m, hm, by omega⟩)
      have hc1 : (ts.logicalStatus != "FREE" &&
          ts.logicalStatus != "NEXT_RESERVATION") = false := by
        simp [hnext]
      rw [hc1]
      simp only [Bool.false_eq_true, if_false]
      have hc2 : (ts.nextReservation.isSome &&
          decide ((ts.remainingTimeMinutes.getD 0) < 60)) = true := by
        simp [hsome, hm, hm60]
      rw [hc2]
      exact ⟨rfl, rfl⟩
    · have hc1 : (ts.logicalStatus != "FREE" &&
          ts.logicalStatus != "NEXT_RESERVATION") = true := by
        simp [hfree, hnext]
      rw [hc1]
      exact ⟨rfl, rfl⟩

/-- C6 (witness): seating a walk-in party of two on a free table succeeds,
inserting the seated walk_in reservation and occupying the table. -/
theorem C6_walk_in_guard_witness :
    (assignWalkIn ⟨[], [⟨5, 1, 1, 4, true, "available"⟩], [], []⟩
        5 1 2 "2024-06-01" ⟨12, 0, 0⟩ 9 100 "QR"
      = (.ok (walkInReservation 1 9 5 2 "2024-06-01" ⟨12, 0, 0⟩ 100 "QR"),
          ⟨[walkInReservation 1 9 5 2 "2024-06-01" ⟨12, 0, 0⟩ 100 "QR"],
            [⟨5, 1, 1, 4, true, "occupied"⟩], [], []⟩)) ∧
    (walkInReservation 1 9 5 2 "2024-06-01" ⟨12, 0, 0⟩ 100 "QR").status
      = "seated" ∧
    (walkInReservation 1 9 5 2 "2024-06-01" ⟨12, 0, 0⟩ 100 "QR").source
      = "walk_in" := by
  have h := C6_walk_in_guard ⟨[], [⟨5, 1, 1, 4, true, "available"⟩], [], []⟩
    5 1 2 "2024-06-01" ⟨12, 0, 0⟩ 9 100 "QR" ⟨5, 1, "FREE", none, none, none⟩
    (by decide) (by decide)
  exact ⟨(h.1 (Or.inl rfl)).trans (by decide), rfl, rfl⟩
